import Mathlib

/-!
Shallow embedding of the pipeline-manager backend (`src/backend/server.js`).

Record types mirror the Mongoose schemas, the `Store` holds the four
collections, and each Express handler becomes a Lean function from the
session state and the store to a response (and, for writes, an updated
store).  JavaScript `Date` values are modelled abstractly as a point in
time carrying its epoch-millisecond value together with its UTC calendar
components (the data `toISOString` exposes).
-/

namespace PipelineManager

/-- Model of a JS `Date`: epoch milliseconds plus the UTC calendar
components that `toISOString().split('T')[0]` renders. -/
structure DateT where
  ms : Int
  year : Nat
  month : Nat
  day : Nat
deriving Repr, DecidableEq

/-- The `status` enum of the Job schema (`server.js` line 77). -/
inductive JobStatus where
  | active
  | completed
  | paused
deriving Repr, DecidableEq, BEq

/-- User schema (`server.js` lines 44-51).  Note: the `unique: true`
constraint is declared on `githubId`, not on `username`. -/
structure UserR where
  id : Nat
  githubId : String
  username : String
  name : String
  email : String
  avatar : String
  createdAt : DateT
deriving Repr, DecidableEq

/-- Pipeline schema (`server.js` lines 54-60). -/
structure PipelineR where
  id : Nat
  name : String
  description : String
  steps : List String
  userId : Nat
  createdAt : DateT
deriving Repr, DecidableEq

/-- Customer schema (`server.js` lines 63-69). -/
structure CustomerR where
  id : Nat
  name : String
  email : String
  phone : String
  userId : Nat
  createdAt : DateT
deriving Repr, DecidableEq

/-- Job schema (`server.js` lines 72-82). -/
structure JobR where
  id : Nat
  title : String
  customerId : Nat
  pipelineId : Nat
  currentStep : String
  status : JobStatus
  dueDate : Option DateT
  progress : Int
  userId : Nat
  createdAt : DateT
deriving Repr, DecidableEq

/-- The four MongoDB collections. -/
structure Store where
  users : List UserR
  pipelines : List PipelineR
  customers : List CustomerR
  jobs : List JobR
deriving Repr, DecidableEq

def emptyStore : Store := { users := [], pipelines := [], customers := [], jobs := [] }

/-- Outcome of a route: 401 from `requireAuth` / the invalid-username
branch, 500 with the handler's generic message, or a JSON body. -/
inductive ApiResult (α : Type) where
  | unauthorized
  | serverError (msg : String)
  | ok (body : α)
deriving Repr, DecidableEq

/-- All identifiers present in the store (one id space for all
collections, standing in for MongoDB ObjectIds). -/
def allIds (s : Store) : List Nat :=
  s.users.map (·.id) ++ s.pipelines.map (·.id) ++
    s.customers.map (·.id) ++ s.jobs.map (·.id)

/-- A generated identifier distinct from every id in the store. -/
def freshId (s : Store) : Nat := (allIds s).foldr max 0 + 1

def findCustomer (s : Store) (cid : Nat) : Option CustomerR :=
  s.customers.find? (fun c => c.id == cid)

def findPipeline (s : Store) (pid : Nat) : Option PipelineR :=
  s.pipelines.find? (fun p => p.id == pid)

/-! Rendering of the calendar-date part of `toISOString` output. -/

def digitChar (n : Nat) : Char :=
  match n with
  | 0 => '0' | 1 => '1' | 2 => '2' | 3 => '3' | 4 => '4'
  | 5 => '5' | 6 => '6' | 7 => '7' | 8 => '8' | _ => '9'

def natDigitsAux : Nat → Nat → List Char
  | 0, _ => []
  | fuel + 1, n =>
    if n < 10 then [digitChar n]
    else natDigitsAux fuel (n / 10) ++ [digitChar (n % 10)]

/-- The decimal digits of `n`, most significant first (`n + 1` units of
fuel always suffice). -/
def natDigits (n : Nat) : List Char := natDigitsAux (n + 1) n

/-- Zero-pad the decimal digits of `n` to `width` characters. -/
def padDigits (width n : Nat) : List Char :=
  List.replicate (width - (natDigits n).length) '0' ++ natDigits n

/-- The characters of the `YYYY-MM-DD` rendering of a date. -/
def isoDateChars (d : DateT) : List Char :=
  padDigits 4 d.year ++ '-' :: (padDigits 2 d.month ++ '-' :: padDigits 2 d.day)

/-- `date.toISOString().split('T')[0]`. -/
def toISODatePart (d : DateT) : String := String.mk (isoDateChars d)

def isDigitChar (c : Char) : Bool := 48 ≤ c.toNat && c.toNat ≤ 57

/-- Checks that a string has the shape `YYYY-MM-DD`. -/
def isYMDString (s : String) : Bool :=
  match s.toList with
  | [y1, y2, y3, y4, h1, m1, m2, h2, d1, d2] =>
    isDigitChar y1 && isDigitChar y2 && isDigitChar y3 && isDigitChar y4 &&
      h1 == '-' && isDigitChar m1 && isDigitChar m2 && h2 == '-' &&
      isDigitChar d1 && isDigitChar d2
  | _ => false

/-- A calendar-wise sensible date with a four-digit year. -/
def validDate (d : DateT) : Prop :=
  d.year < 10000 ∧ 1 ≤ d.month ∧ d.month ≤ 12 ∧ 1 ≤ d.day ∧ d.day ≤ 31

/-! ### Mongoose save-time validation -/

/-- `user.save()`: fails on a duplicate `githubId` (the schema's unique
index) or a missing required field; `username` carries no uniqueness
constraint. -/
def saveUser (u : UserR) (s : Store) : Except String Store :=
  if s.users.any (fun v => v.githubId == u.githubId) then
    Except.error "duplicate key error: githubId"
  else if u.username == "" || u.name == "" || u.email == "" then
    Except.error "ValidationError: required field missing"
  else
    Except.ok { s with users := s.users ++ [u] }

/-- Validation the Job schema performs on save: required strings present,
`progress` within its declared `min`/`max` bounds. -/
def validJob (j : JobR) : Bool :=
  !(j.title == "") && !(j.currentStep == "") && decide (0 ≤ j.progress) && decide (j.progress ≤ 100)

/-! ### GET /api/jobs (`server.js` lines 202-224) -/

/-- The response shape built by the jobs formatter. -/
structure JobView where
  id : Nat
  title : String
  customer : String
  pipeline : String
  currentStep : String
  status : JobStatus
  dueDate : Option String
  progress : Int
deriving Repr, DecidableEq

/-- One formatted job: `populate` of the customer and pipeline names plus
the field mapping of lines 209-218.  A dangling reference makes
`job.customerId.name` throw, so it surfaces as `none`. -/
def jobViewOf (s : Store) (j : JobR) : Option JobView :=
  match findCustomer s j.customerId, findPipeline s j.pipelineId with
  | some c, some p =>
    some { id := j.id, title := j.title, customer := c.name, pipeline := p.name,
           currentStep := j.currentStep, status := j.status,
           dueDate := j.dueDate.map toISODatePart, progress := j.progress }
  | _, _ => none

/-- Formats each job in order, failing if any reference fails to resolve. -/
def populateAll (s : Store) : List JobR → Option (List JobView)
  | [] => some []
  | j :: rest =>
    match jobViewOf s j, populateAll s rest with
    | some v, some vs => some (v :: vs)
    | _, _ => none

/-- The descending `createdAt` ordering of `.sort(\x7b createdAt: -1 \x7d)`. -/
def newerRel (a b : JobR) : Prop := b.createdAt.ms ≤ a.createdAt.ms

instance : DecidableRel newerRel := fun _ _ => inferInstanceAs (Decidable (_ ≤ _))

instance : IsTotal JobR newerRel := ⟨fun a b => le_total b.createdAt.ms a.createdAt.ms⟩

instance : IsTrans JobR newerRel :=
  ⟨fun _ _ _ hab hbc => le_trans hbc hab⟩

/-- The `Job.find(\x7b userId \x7d)` query of line 204. -/
def jobsQuery (uid : Nat) (s : Store) : List JobR :=
  s.jobs.filter (fun j => j.userId == uid)

/-- GET /api/jobs with the store query's outcome passed explicitly
(`qr = Except.error detail` models a persistence failure caught by the
`catch` block).  Returns the response together with everything the
handler logs — note the catch block at lines 221-223 logs nothing. -/
def getJobsR (sess : Option Nat) (qr : Except String (List JobR)) (s : Store) :
    ApiResult (List JobView) × List String :=
  match sess with
  | none => (ApiResult.unauthorized, [])
  | some _ =>
    match qr with
    | Except.error _detail => (ApiResult.serverError "Failed to fetch jobs", [])
    | Except.ok js =>
      match populateAll s (List.insertionSort newerRel js) with
      | none => (ApiResult.serverError "Failed to fetch jobs", [])
      | some vs => (ApiResult.ok vs, [])

/-- GET /api/jobs on a healthy store connection. -/
def getJobs (sess : Option Nat) (s : Store) : ApiResult (List JobView) × List String :=
  getJobsR sess (Except.ok (match sess with | none => [] | some uid => jobsQuery uid s)) s

/-! ### GET /api/dashboard/stats (`server.js` lines 172-199) -/

structure Stats where
  activeJobs : Nat
  totalCustomers : Nat
  totalPipelines : Nat
  jobsDueThisWeek : Nat
deriving Repr, DecidableEq

def weekMs : Int := 7 * 24 * 60 * 60 * 1000

/-- The `dueDate: \x7b $gte: now, $lte: now + 7d \x7d` range condition; a
document with no `dueDate` does not match. -/
def dueWithinWeek (now : Int) (j : JobR) : Bool :=
  match j.dueDate with
  | some d => decide (now ≤ d.ms) && decide (d.ms ≤ now + weekMs)
  | none => false

def activeFor (uid : Nat) (j : JobR) : Bool :=
  j.userId == uid && j.status == JobStatus.active

def getStats (sess : Option Nat) (now : Int) (s : Store) : ApiResult Stats :=
  match sess with
  | none => ApiResult.unauthorized
  | some uid =>
    ApiResult.ok
      { activeJobs := (s.jobs.filter (activeFor uid)).length
        totalCustomers := (s.customers.filter (fun c => c.userId == uid)).length
        totalPipelines := (s.pipelines.filter (fun p => p.userId == uid)).length
        jobsDueThisWeek :=
          (s.jobs.filter (fun j => activeFor uid j && dueWithinWeek now j)).length }

/-- GET /api/dashboard/stats with the store outcome passed explicitly; the
catch block at lines 196-198 logs nothing. -/
def getStatsR (sess : Option Nat) (qr : Except String Stats) :
    ApiResult Stats × List String :=
  match sess with
  | none => (ApiResult.unauthorized, [])
  | some _ =>
    match qr with
    | Except.error _detail => (ApiResult.serverError "Failed to fetch stats", [])
    | Except.ok st => (ApiResult.ok st, [])

/-! ### POST /api/jobs (`server.js` lines 226-244) -/

/-- The request body.  `status` and `progress` are present so that we can
state what the handler does with them: line 228 destructures only
`title, customerId, pipelineId, currentStep, dueDate`, so they never
reach the document and the schema defaults (`active`, `0`) apply. -/
structure JobBody where
  title : String
  customerId : Nat
  pipelineId : Nat
  currentStep : String
  dueDate : Option DateT
  status : Option JobStatus
  progress : Option Int
deriving Repr, DecidableEq

def postJobs (sess : Option Nat) (now : DateT) (body : JobBody) (s : Store) :
    ApiResult Nat × Store :=
  match sess with
  | none => (ApiResult.unauthorized, s)
  | some uid =>
    let j : JobR :=
      { id := freshId s, title := body.title, customerId := body.customerId,
        pipelineId := body.pipelineId, currentStep := body.currentStep,
        status := JobStatus.active, dueDate := body.dueDate, progress := 0,
        userId := uid, createdAt := now }
    if validJob j then
      (ApiResult.ok j.id, { s with jobs := s.jobs ++ [j] })
    else
      (ApiResult.serverError "Failed to create job", s)

/-! ### GET/POST /api/customers (`server.js` lines 247-294) -/

structure CustomerView where
  id : Nat
  name : String
  email : String
  phone : String
  activeJobs : Nat
  totalJobs : Nat
deriving Repr, DecidableEq

/-- GET /api/customers: the customer list is owner-filtered, but the two
`Job.countDocuments` calls at lines 253-259 filter only on `customerId`
(and `status`), with no `userId` condition. -/
def getCustomers (sess : Option Nat) (s : Store) : ApiResult (List CustomerView) :=
  match sess with
  | none => ApiResult.unauthorized
  | some uid =>
    ApiResult.ok
      ((s.customers.filter (fun c => c.userId == uid)).map (fun c =>
        { id := c.id, name := c.name, email := c.email, phone := c.phone,
          activeJobs :=
            (s.jobs.filter (fun j => j.customerId == c.id && j.status == JobStatus.active)).length,
          totalJobs := (s.jobs.filter (fun j => j.customerId == c.id)).length }))

structure CustomerBody where
  name : String
  email : String
  phone : String
deriving Repr, DecidableEq

def postCustomers (sess : Option Nat) (now : DateT) (body : CustomerBody) (s : Store) :
    ApiResult Nat × Store :=
  match sess with
  | none => (ApiResult.unauthorized, s)
  | some uid =>
    if body.name == "" || body.email == "" then
      (ApiResult.serverError "Failed to create customer", s)
    else
      let c : CustomerR :=
        { id := freshId s, name := body.name, email := body.email,
          phone := body.phone, userId := uid, createdAt := now }
      (ApiResult.ok c.id, { s with customers := s.customers ++ [c] })

/-! ### GET/POST /api/pipelines (`server.js` lines 297-341) -/

structure PipelineView where
  id : Nat
  name : String
  description : String
  steps : List String
  jobCount : Nat
  createdAt : String
deriving Repr, DecidableEq

/-- GET /api/pipelines: the pipeline list is owner-filtered, but the
`Job.countDocuments` at lines 303-306 filters only on `pipelineId` and
`status`, with no `userId` condition. -/
def getPipelines (sess : Option Nat) (s : Store) : ApiResult (List PipelineView) :=
  match sess with
  | none => ApiResult.unauthorized
  | some uid =>
    ApiResult.ok
      ((s.pipelines.filter (fun p => p.userId == uid)).map (fun p =>
        { id := p.id, name := p.name, description := p.description, steps := p.steps,
          jobCount :=
            (s.jobs.filter (fun j => j.pipelineId == p.id && j.status == JobStatus.active)).length,
          createdAt := toISODatePart p.createdAt }))

structure PipelineBody where
  name : String
  description : String
  steps : List String
deriving Repr, DecidableEq

def postPipelines (sess : Option Nat) (now : DateT) (body : PipelineBody) (s : Store) :
    ApiResult Nat × Store :=
  match sess with
  | none => (ApiResult.unauthorized, s)
  | some uid =>
    if body.name == "" then
      (ApiResult.serverError "Failed to create pipeline", s)
    else
      let p : PipelineR :=
        { id := freshId s, name := body.name, description := body.description,
          steps := body.steps, userId := uid, createdAt := now }
      (ApiResult.ok p.id, { s with pipelines := s.pipelines ++ [p] })

/-! ### Sample-data seeder (`server.js` lines 344-426) -/

def date20250701 : DateT := { ms := 1751328000000, year := 2025, month := 7, day := 1 }
def date20250715 : DateT := { ms := 1752537600000, year := 2025, month := 7, day := 15 }
def date20250620 : DateT := { ms := 1750377600000, year := 2025, month := 6, day := 20 }

/-- The records `createSampleData` inserts for owner `uid`, with ids
allocated from `idBase`: two pipelines, three customers, three jobs. -/
def sampleRecords (uid idBase : Nat) (now : DateT) :
    List PipelineR × List CustomerR × List JobR :=
  let web : PipelineR :=
    { id := idBase, name := "Web Development",
      description := "Standard web development workflow",
      steps := ["Initial Contact", "Requirements", "Design", "Development",
                "Testing", "Deployment"],
      userId := uid, createdAt := now }
  let mobile : PipelineR :=
    { id := idBase + 1, name := "Mobile App Development",
      description := "Mobile application development process",
      steps := ["Discovery", "Wireframes", "UI/UX", "Development",
                "Beta Testing", "App Store"],
      userId := uid, createdAt := now }
  let c1 : CustomerR :=
    { id := idBase + 2, name := "ABC Corp", email := "contact@abccorp.com",
      phone := "+1-555-0123", userId := uid, createdAt := now }
  let c2 : CustomerR :=
    { id := idBase + 3, name := "Tasty Bites", email := "info@tastybites.com",
      phone := "+1-555-0456", userId := uid, createdAt := now }
  let c3 : CustomerR :=
    { id := idBase + 4, name := "Jane Smith", email := "jane@example.com",
      phone := "+1-555-0789", userId := uid, createdAt := now }
  let j1 : JobR :=
    { id := idBase + 5, title := "E-commerce Website", customerId := c1.id,
      pipelineId := web.id, currentStep := "Development", status := JobStatus.active,
      dueDate := some date20250701, progress := 60, userId := uid, createdAt := now }
  let j2 : JobR :=
    { id := idBase + 6, title := "Restaurant App", customerId := c2.id,
      pipelineId := mobile.id, currentStep := "UI/UX", status := JobStatus.active,
      dueDate := some date20250715, progress := 30, userId := uid, createdAt := now }
  let j3 : JobR :=
    { id := idBase + 7, title := "Portfolio Site", customerId := c3.id,
      pipelineId := web.id, currentStep := "Testing", status := JobStatus.active,
      dueDate := some date20250620, progress := 85, userId := uid, createdAt := now }
  ([web, mobile], [c1, c2, c3], [j1, j2, j3])

/-- `createSampleData(userId)`: all errors are caught inside the function
(lines 423-425), so a failing run (`seedOk = false`) only logs and never
propagates.  Returns the updated store and the log lines. -/
def createSampleData (uid : Nat) (now : DateT) (seedOk : Bool) (s : Store) :
    Store × List String :=
  if seedOk then
    let r := sampleRecords uid (freshId s) now
    ({ s with pipelines := s.pipelines ++ r.1,
              customers := s.customers ++ r.2.1,
              jobs := s.jobs ++ r.2.2 },
     ["Sample data created for user"])
  else
    (s, ["Error creating sample data"])

/-! ### POST /auth/github (`server.js` lines 101-143) -/

/-- Observable milestones of the login flow, in execution order. -/
inductive Ev where
  | userCreated
  | seedingRan
  | sessionAssigned
deriving Repr, DecidableEq, BEq

/-- The `user` object of the 200 response body. -/
structure AuthUserView where
  id : Nat
  name : String
  email : String
  avatar : String
  githubUsername : String
deriving Repr, DecidableEq

/-- Everything the login handler produces: response, session after the
request, store after the request, milestone trace, and log lines. -/
structure AuthOutcome where
  resp : ApiResult AuthUserView
  sess : Option Nat
  store : Store
  events : List Ev
  log : List String
deriving Repr, DecidableEq

def userView (u : UserR) : AuthUserView :=
  { id := u.id, name := u.name, email := u.email, avatar := u.avatar,
    githubUsername := u.username }

/-- The user document the login handler creates on a first login
(`server.js` lines 115-121). -/
def newUser (s : Store) (now : DateT) : UserR :=
  { id := freshId s, githubId := "desivar-github-id", username := "desivar",
    name := "Desivar Developer", email := "desivar@example.com",
    avatar := "https://avatars.githubusercontent.com/u/desivar?v=4",
    createdAt := now }

/-- POST /auth/github.  Only `"desivar"` is accepted; a first login saves
the user, then runs the seeder, then assigns `req.session.userId`
(lines 122, 125, 128 — in that order). -/
def authGithub (username : String) (now : DateT) (seedOk : Bool)
    (sess : Option Nat) (s : Store) : AuthOutcome :=
  if username ≠ "desivar" then
    { resp := ApiResult.unauthorized, sess := sess, store := s, events := [], log := [] }
  else
    match s.users.find? (fun u => u.username == username) with
    | some u =>
      { resp := ApiResult.ok (userView u), sess := some u.id, store := s,
        events := [Ev.sessionAssigned], log := [] }
    | none =>
      match saveUser (newUser s now) s with
      | Except.error e =>
        { resp := ApiResult.serverError "Authentication failed", sess := sess,
          store := s, events := [], log := ["Auth error: " ++ e] }
      | Except.ok s1 =>
        let seeded := createSampleData (newUser s now).id now seedOk s1
        { resp := ApiResult.ok (userView (newUser s now)),
          sess := some (newUser s now).id, store := seeded.1,
          events := [Ev.userCreated, Ev.seedingRan, Ev.sessionAssigned],
          log := seeded.2 }

/-! ### Reachable stores -/

/-- Stores reachable from the empty database through the write paths the
server exposes. -/
inductive Reachable : Store → Prop
  | init : Reachable emptyStore
  | auth (username : String) (now : DateT) (seedOk : Bool) (sess : Option Nat)
      {s : Store} : Reachable s → Reachable (authGithub username now seedOk sess s).store
  | jobs (sess : Option Nat) (now : DateT) (body : JobBody) {s : Store} :
      Reachable s → Reachable (postJobs sess now body s).2
  | customers (sess : Option Nat) (now : DateT) (body : CustomerBody) {s : Store} :
      Reachable s → Reachable (postCustomers sess now body s).2
  | pipelines (sess : Option Nat) (now : DateT) (body : PipelineBody) {s : Store} :
      Reachable s → Reachable (postPipelines sess now body s).2

/-- All stored jobs have `progress` within the schema's declared bounds. -/
def progressOk (s : Store) : Prop :=
  ∀ j ∈ s.jobs, 0 ≤ j.progress ∧ j.progress ≤ 100

/-! ### Concrete stores used to instantiate and to refute claims -/

def epochDate : DateT := { ms := 0, year := 1970, month := 1, day := 1 }

def dAt (k : Int) : DateT := { ms := k, year := 1970, month := 1, day := 1 }

/-- A store where user 2 owns a job that references user 1's customer and
pipeline (such a job is creatable through POST /api/jobs, which checks no
ownership on the referenced ids). -/
def cexStore : Store :=
  { users := []
    pipelines :=
      [{ id := 11, name := "P", description := "d", steps := [],
         userId := 1, createdAt := epochDate }]
    customers :=
      [{ id := 10, name := "C", email := "c@x.com", phone := "1",
         userId := 1, createdAt := epochDate }]
    jobs :=
      [{ id := 12, title := "T", customerId := 10, pipelineId := 11,
         currentStep := "s", status := JobStatus.active, dueDate := none,
         progress := 0, userId := 2, createdAt := epochDate }] }

/-- A two-user store: user 1 owns jobs 7 and 8, user 2 owns job 9. -/
def exStore : Store :=
  { users :=
      [{ id := 1, githubId := "g1", username := "alice", name := "Alice",
         email := "a@x.com", avatar := "", createdAt := epochDate },
       { id := 2, githubId := "g2", username := "bob", name := "Bob",
         email := "b@x.com", avatar := "", createdAt := epochDate }]
    pipelines :=
      [{ id := 3, name := "PA", description := "", steps := ["s1"],
         userId := 1, createdAt := epochDate },
       { id := 4, name := "PB", description := "", steps := [],
         userId := 2, createdAt := epochDate }]
    customers :=
      [{ id := 5, name := "CA", email := "ca@x.com", phone := "",
         userId := 1, createdAt := epochDate },
       { id := 6, name := "CB", email := "cb@x.com", phone := "",
         userId := 2, createdAt := epochDate }]
    jobs :=
      [{ id := 7, title := "JA1", customerId := 5, pipelineId := 3,
         currentStep := "s1", status := JobStatus.active,
         dueDate := some { ms := 100, year := 1970, month := 1, day := 1 },
         progress := 10, userId := 1, createdAt := dAt 1000 },
       { id := 8, title := "JA2", customerId := 5, pipelineId := 3,
         currentStep := "s1", status := JobStatus.completed, dueDate := none,
         progress := 100, userId := 1, createdAt := dAt 2000 },
       { id := 9, title := "JB", customerId := 6, pipelineId := 4,
         currentStep := "x", status := JobStatus.active, dueDate := none,
         progress := 50, userId := 2, createdAt := dAt 1500 }] }

/-- Two users that differ in `githubId` but share a `username`. -/
def c6UserA : UserR :=
  { id := 1, githubId := "g1", username := "desivar", name := "A",
    email := "a@x.com", avatar := "", createdAt := epochDate }

def c6UserB : UserR :=
  { id := 2, githubId := "g2", username := "desivar", name := "B",
    email := "b@x.com", avatar := "", createdAt := epochDate }

def c6Store : Store := { emptyStore with users := [c6UserA] }

/-- A POST /api/jobs body that references user 2's customer and pipeline
from `exStore` and smuggles `status`/`progress` values. -/
def c10Body : JobBody :=
  { title := "Hijack", customerId := 6, pipelineId := 4, currentStep := "x",
    dueDate := none, status := some JobStatus.completed, progress := some 150 }

/-- User 2's job in `exStore`. -/
def jB : JobR :=
  { id := 9, title := "JB", customerId := 6, pipelineId := 4,
    currentStep := "x", status := JobStatus.active, dueDate := none,
    progress := 50, userId := 2, createdAt := dAt 1500 }

/-- The rendering of user 1's job 7 in `exStore`. -/
def vJA1 : JobView :=
  { id := 7, title := "JA1", customer := "CA", pipeline := "PA",
    currentStep := "s1", status := JobStatus.active,
    dueDate := some "1970-01-01", progress := 10 }

/-- The rendering of user 1's job 8 in `exStore`. -/
def vJA2 : JobView :=
  { id := 8, title := "JA2", customer := "CA", pipeline := "PA",
    currentStep := "s1", status := JobStatus.completed,
    dueDate := none, progress := 100 }

/-! ## Helper lemmas -/

theorem length_filter_and_le {α : Type} (p q : α → Bool) (l : List α) :
    (l.filter (fun a => p a && q a)).length ≤ (l.filter p).length := by
  induction l with
  | nil => simp
  | cons a t ih =>
    cases hp : p a <;> cases hq : q a <;>
      simp [List.filter_cons, hp, hq] <;> omega

/-! ## Claim C3 -/

/-- C3: for every authenticated GET /api/dashboard/stats request,
`activeJobs` counts exactly the session user's jobs with status
`active`, `jobsDueThisWeek` counts exactly the session user's active
jobs whose due date lies within `[now, now + 7 days]` inclusive (jobs
with no due date never match), and `jobsDueThisWeek ≤ activeJobs`. -/
theorem spec_c3 : ∀ (u : Nat) (now : Int) (s : Store) (st : Stats),
    getStats (some u) now s = ApiResult.ok st →
    st.activeJobs =
      (s.jobs.filter (fun j => j.userId == u && j.status == JobStatus.active)).length ∧
    st.jobsDueThisWeek =
      (s.jobs.filter (fun j =>
        (j.userId == u && j.status == JobStatus.active) &&
        match j.dueDate with
        | some d => decide (now ≤ d.ms) && decide (d.ms ≤ now + 7 * 24 * 60 * 60 * 1000)
        | none => false)).length ∧
    st.jobsDueThisWeek ≤ st.activeJobs := by
  intro u now s st h
  simp only [getStats] at h
  injection h with h
  subst h
  refine ⟨rfl, rfl, ?_⟩
  exact length_filter_and_le (activeFor u) (dueWithinWeek now) s.jobs

/-- C3 witness: concrete evaluation on `exStore` at `now = 0`. -/
theorem spec_c3_witness :
    (1 : Nat) =
      (exStore.jobs.filter (fun j => j.userId == 1 && j.status == JobStatus.active)).length ∧
    (1 : Nat) =
      (exStore.jobs.filter (fun j =>
        (j.userId == 1 && j.status == JobStatus.active) &&
        match j.dueDate with
        | some d => decide ((0 : Int) ≤ d.ms) && decide (d.ms ≤ 0 + 7 * 24 * 60 * 60 * 1000)
        | none => false)).length ∧
    (1 : Nat) ≤ (1 : Nat) :=
  spec_c3 1 0 exStore
    { activeJobs := 1, totalCustomers := 1, totalPipelines := 1, jobsDueThisWeek := 1 }
    (by decide)

/-! ## Claim C6 -/

/-- C6 counterexample: inserting a second user with the same username
`"desivar"` but a different `githubId` succeeds — the store enforces no
username uniqueness (the unique index is on `githubId`). -/
theorem spec_c6_cex :
    c6UserA.username = c6UserB.username ∧
    saveUser c6UserB c6Store = Except.ok { c6Store with users := [c6UserA, c6UserB] } :=
  ⟨rfl, rfl⟩

/-- C6 amended: the uniqueness constraint the store enforces is on
`githubId` (the external login id), not on `username`: an insert whose
`githubId` collides with an existing user fails with a write error, and
an insert with a fresh `githubId` and all required fields present
succeeds even if the username already exists. -/
theorem spec_c6 :
    (∀ (u : UserR) (s : Store), (∃ v ∈ s.users, v.githubId = u.githubId) →
      saveUser u s = Except.error "duplicate key error: githubId") ∧
    (∀ (u : UserR) (s : Store), (∀ v ∈ s.users, v.githubId ≠ u.githubId) →
      u.username ≠ "" → u.name ≠ "" → u.email ≠ "" →
      saveUser u s = Except.ok { s with users := s.users ++ [u] }) := by
  constructor
  · rintro u s ⟨v, hv, hg⟩
    have hany : s.users.any (fun w => w.githubId == u.githubId) = true := by
      rw [List.any_eq_true]
      exact ⟨v, hv, by simp [hg]⟩
    simp [saveUser, hany]
  · intro u s hno hu hn he
    have hany : s.users.any (fun w => w.githubId == u.githubId) = false := by
      rw [Bool.eq_false_iff]
      intro hcontra
      rw [List.any_eq_true] at hcontra
      obtain ⟨v, hv, hg⟩ := hcontra
      exact hno v hv (by simpa using hg)
    simp [saveUser, hany, hu, hn, he]

/-- C6 witness: both directions of the amended claim at concrete inputs. -/
theorem spec_c6_witness :
    saveUser { c6UserB with githubId := "g1" } c6Store =
      Except.error "duplicate key error: githubId" ∧
    saveUser c6UserB c6Store = Except.ok { c6Store with users := [c6UserA, c6UserB] } :=
  ⟨spec_c6.1 { c6UserB with githubId := "g1" } c6Store ⟨c6UserA, by decide, by decide⟩,
   by
    have h := spec_c6.2 c6UserB c6Store (by decide) (by decide) (by decide) (by decide)
    simpa [c6Store, emptyStore] using h⟩

/-! ## Claim C9 -/

/-- C9 counterexample: a persistence failure with detail `"boom"` on the
authenticated jobs and stats routes produces the generic 500 body, but
the handlers' catch blocks log nothing at all — the underlying detail is
discarded, not logged. -/
theorem spec_c9_cex :
    getJobsR (some 1) (Except.error "boom") emptyStore =
      (ApiResult.serverError "Failed to fetch jobs", ([] : List String)) ∧
    getStatsR (some 1) (Except.error "boom") =
      (ApiResult.serverError "Failed to fetch stats", ([] : List String)) ∧
    "boom" ∉ (getJobsR (some 1) (Except.error "boom") emptyStore).2 := by
  refine ⟨rfl, rfl, ?_⟩
  simp [getJobsR]

/-- C9 amended: every persistence failure on the authenticated jobs and
stats routes yields an HTTP 500 whose body is a fixed generic message
independent of the failure detail (so the detail is never leaked), but
the detail is discarded rather than logged: the handlers log nothing. -/
theorem spec_c9 : ∀ (uid : Nat) (detail : String) (s : Store),
    getJobsR (some uid) (Except.error detail) s =
      (ApiResult.serverError "Failed to fetch jobs", []) ∧
    getStatsR (some uid) (Except.error detail) =
      (ApiResult.serverError "Failed to fetch stats", []) := by
  intro uid detail s
  exact ⟨rfl, rfl⟩

/-! ## Claim C10 -/

/-- C10: POST /api/jobs checks no ownership on the referenced ids — for
any session user and any body with the required fields present, the job
is persisted with `customerId`/`pipelineId` exactly as supplied, owner
set to the session user, status `active` and progress `0`; and the
response and store are identical whatever `status`/`progress` values the
body carries. -/
theorem spec_c10 : ∀ (u : Nat) (now : DateT) (body : JobBody) (s : Store),
    body.title ≠ "" → body.currentStep ≠ "" →
    (∃ j : JobR,
      postJobs (some u) now body s = (ApiResult.ok j.id, { s with jobs := s.jobs ++ [j] }) ∧
      j.customerId = body.customerId ∧ j.pipelineId = body.pipelineId ∧
      j.userId = u ∧ j.status = JobStatus.active ∧ j.progress = 0) ∧
    postJobs (some u) now body s =
      postJobs (some u) now { body with status := none, progress := none } s := by
  intro u now body s ht hc
  refine ⟨⟨{ id := freshId s, title := body.title, customerId := body.customerId,
             pipelineId := body.pipelineId, currentStep := body.currentStep,
             status := JobStatus.active, dueDate := body.dueDate, progress := 0,
             userId := u, createdAt := now }, ?_, rfl, rfl, rfl, rfl, rfl⟩, rfl⟩
  simp [postJobs, validJob, ht, hc]

/-- C10 witness: user 1 creates a job referencing user 2's customer 6 and
pipeline 4 from `exStore`, with `status`/`progress` smuggled in the body. -/
theorem spec_c10_witness :
    (∃ j : JobR,
      postJobs (some 1) epochDate c10Body exStore =
        (ApiResult.ok j.id, { exStore with jobs := exStore.jobs ++ [j] }) ∧
      j.customerId = c10Body.customerId ∧ j.pipelineId = c10Body.pipelineId ∧
      j.userId = 1 ∧ j.status = JobStatus.active ∧ j.progress = 0) ∧
    postJobs (some 1) epochDate c10Body exStore =
      postJobs (some 1) epochDate { c10Body with status := none, progress := none } exStore :=
  spec_c10 1 epochDate c10Body exStore (by decide) (by decide)

/-! ## Claim C1 -/

/-- C1 counterexample: in `cexStore`, user 2 owns the only job, which
references user 1's customer 10 and pipeline 11.  User 1's customer
listing reports `activeJobs = totalJobs = 1` and user 1's pipeline
listing reports `jobCount = 1`, although user 1 owns no job at all: the
count sub-queries carry no owner filter. -/
theorem spec_c1_cex :
    getCustomers (some 1) cexStore =
      ApiResult.ok [{ id := 10, name := "C", email := "c@x.com", phone := "1",
                      activeJobs := 1, totalJobs := 1 }] ∧
    (cexStore.jobs.filter (fun j => j.userId == 1 && j.customerId == 10 &&
      j.status == JobStatus.active)).length = 0 ∧
    getPipelines (some 1) cexStore =
      ApiResult.ok [{ id := 11, name := "P", description := "d", steps := [],
                      jobCount := 1, createdAt := "1970-01-01" }] ∧
    (cexStore.jobs.filter (fun j => j.userId == 1 && j.pipelineId == 11 &&
      j.status == JobStatus.active)).length = 0 := by
  refine ⟨by decide, by decide, by decide, by decide⟩

/-- C1 amended: GET /api/customers and GET /api/pipelines list only the
session user's customers/pipelines, but the per-record job counts are
computed over all jobs referencing the record, with no owner filter
(`activeJobs`/`jobCount` additionally filter on status `active`). -/
theorem spec_c1 : ∀ (uid : Nat) (s : Store),
    (∀ vs, getCustomers (some uid) s = ApiResult.ok vs →
      ∀ v ∈ vs, ∃ c ∈ s.customers, c.userId = uid ∧ v.id = c.id ∧
        v.activeJobs = (s.jobs.filter (fun j => j.customerId == c.id &&
          j.status == JobStatus.active)).length ∧
        v.totalJobs = (s.jobs.filter (fun j => j.customerId == c.id)).length) ∧
    (∀ vs, getPipelines (some uid) s = ApiResult.ok vs →
      ∀ v ∈ vs, ∃ p ∈ s.pipelines, p.userId = uid ∧ v.id = p.id ∧
        v.jobCount = (s.jobs.filter (fun j => j.pipelineId == p.id &&
          j.status == JobStatus.active)).length) := by
  intro uid s
  constructor
  · intro vs h v hv
    simp only [getCustomers] at h
    injection h with h
    subst h
    simp only [List.mem_map] at hv
    obtain ⟨c, hc, rfl⟩ := hv
    rw [List.mem_filter] at hc
    exact ⟨c, hc.1, by simpa using hc.2, rfl, rfl, rfl⟩
  · intro vs h v hv
    simp only [getPipelines] at h
    injection h with h
    subst h
    simp only [List.mem_map] at hv
    obtain ⟨p, hp, rfl⟩ := hv
    rw [List.mem_filter] at hp
    exact ⟨p, hp.1, by simpa using hp.2, rfl, rfl⟩

/-- C1 witness: the amended claim evaluated at `cexStore` for session
user 1. -/
theorem spec_c1_witness :
    ∃ c ∈ cexStore.customers, c.userId = 1 ∧ (10 : Nat) = c.id ∧
      (1 : Nat) = (cexStore.jobs.filter (fun j => j.customerId == c.id &&
        j.status == JobStatus.active)).length ∧
      (1 : Nat) = (cexStore.jobs.filter (fun j => j.customerId == c.id)).length :=
  (spec_c1 1 cexStore).1
    [{ id := 10, name := "C", email := "c@x.com", phone := "1",
       activeJobs := 1, totalJobs := 1 }] (by decide)
    { id := 10, name := "C", email := "c@x.com", phone := "1",
      activeJobs := 1, totalJobs := 1 } (by decide)

/-! ## Populate and sorting lemmas -/

theorem jobViewOf_inv {s : Store} {j : JobR} {v : JobView}
    (h : jobViewOf s j = some v) :
    ∃ c p, findCustomer s j.customerId = some c ∧ findPipeline s j.pipelineId = some p ∧
      v = { id := j.id, title := j.title, customer := c.name, pipeline := p.name,
            currentStep := j.currentStep, status := j.status,
            dueDate := j.dueDate.map toISODatePart, progress := j.progress } := by
  unfold jobViewOf at h
  cases hc : findCustomer s j.customerId <;> rw [hc] at h
  · exact absurd h (by simp)
  · cases hp : findPipeline s j.pipelineId <;> rw [hp] at h
    · exact absurd h (by simp)
    · refine ⟨_, _, rfl, rfl, ?_⟩
      injection h with h
      exact h.symm

theorem populateAll_mem {s : Store} : ∀ {l : List JobR} {vs : List JobView},
    populateAll s l = some vs → ∀ v ∈ vs, ∃ j ∈ l, jobViewOf s j = some v := by
  intro l
  induction l with
  | nil =>
    intro vs h v hv
    simp only [populateAll] at h
    injection h with h
    subst h
    simp at hv
  | cons j t ih =>
    intro vs h v hv
    simp only [populateAll] at h
    cases hj : jobViewOf s j <;> rw [hj] at h
    · exact absurd h (by simp)
    · cases ht : populateAll s t <;> rw [ht] at h
      · exact absurd h (by simp)
      · injection h with h
        subst h
        rcases List.mem_cons.mp hv with rfl | hv2
        · exact ⟨j, List.mem_cons_self _ _, hj⟩
        · obtain ⟨j2, hj2, hv2⟩ := ih ht v hv2
          exact ⟨j2, List.mem_cons_of_mem _ hj2, hv2⟩

theorem getJobs_ok {u : Nat} {s : Store} {vs : List JobView}
    (h : (getJobs (some u) s).1 = ApiResult.ok vs) :
    populateAll s (List.insertionSort newerRel (jobsQuery u s)) = some vs := by
  unfold getJobs getJobsR at h
  cases hp : populateAll s (List.insertionSort newerRel (jobsQuery u s)) <;>
    simp only [hp] at h
  · exact absurd h (by simp)
  · injection h with h
    subst h
    rfl

/-! ## Claim C2 -/

/-- C2: GET /api/jobs returns only renderings of jobs owned by the
session user; under distinct job ids, no entry of one user's listing is
a job owned by a different user. -/
theorem spec_c2 : ∀ (u : Nat) (s : Store) (vs : List JobView),
    (getJobs (some u) s).1 = ApiResult.ok vs →
    (∀ v ∈ vs, ∃ j ∈ s.jobs, j.userId = u ∧ jobViewOf s j = some v) ∧
    ((s.jobs.map (fun j => j.id)).Nodup →
      ∀ u2, u2 ≠ u → ∀ j2 ∈ s.jobs, j2.userId = u2 → ∀ v ∈ vs, v.id ≠ j2.id) := by
  intro u s vs h
  have hmem : ∀ v ∈ vs, ∃ j ∈ s.jobs, j.userId = u ∧ jobViewOf s j = some v := by
    intro v hv
    obtain ⟨j, hj, hview⟩ := populateAll_mem (getJobs_ok h) v hv
    rw [List.mem_insertionSort] at hj
    rw [jobsQuery, List.mem_filter] at hj
    exact ⟨j, hj.1, by simpa using hj.2, hview⟩
  refine ⟨hmem, ?_⟩
  intro hnd u2 hne j2 hj2 hu2 v hv heq
  obtain ⟨j, hj, hju, hview⟩ := hmem v hv
  obtain ⟨c, p, _, _, rfl⟩ := jobViewOf_inv hview
  have : j = j2 := List.inj_on_of_nodup_map hnd hj hj2 heq
  subst this
  exact hne (hu2.symm.trans hju)

/-- C2 witness: in the two-user store `exStore`, user 1's listing
contains the rendering of their own job 7, and its top entry (job 8)
is not user 2's job 9. -/
theorem spec_c2_witness :
    (∃ j ∈ exStore.jobs, j.userId = 1 ∧ jobViewOf exStore j = some vJA1) ∧
    vJA2.id ≠ jB.id :=
  ⟨(spec_c2 1 exStore [vJA2, vJA1] (by decide)).1 vJA1 (by decide),
   (spec_c2 1 exStore [vJA2, vJA1] (by decide)).2 (by decide) 2 (by decide) jB
     (by decide) rfl vJA2 (by decide)⟩

/-! ## Store-evolution lemmas -/

theorem saveUser_ok_inv {u : UserR} {s s1 : Store} (h : saveUser u s = Except.ok s1) :
    s1 = { s with users := s.users ++ [u] } := by
  unfold saveUser at h
  split at h
  · exact absurd h (by simp)
  · split at h
    · exact absurd h (by simp)
    · injection h with h
      exact h.symm

theorem sampleRecords_jobs_progress (uid idBase : Nat) (now : DateT) :
    ∀ j ∈ (sampleRecords uid idBase now).2.2, 0 ≤ j.progress ∧ j.progress ≤ 100 := by
  intro j hj
  simp only [sampleRecords, List.mem_cons, List.not_mem_nil, or_false] at hj
  rcases hj with rfl | rfl | rfl <;> exact ⟨by norm_num, by norm_num⟩

theorem authGithub_store_jobs (username : String) (now : DateT) (seedOk : Bool)
    (sess : Option Nat) (s : Store) :
    (authGithub username now seedOk sess s).store.jobs = s.jobs ∨
    ∃ uid idBase, (authGithub username now seedOk sess s).store.jobs =
      s.jobs ++ (sampleRecords uid idBase now).2.2 := by
  unfold authGithub
  split
  · exact Or.inl rfl
  · split
    · exact Or.inl rfl
    · split
      · exact Or.inl rfl
      · rename_i s1 hsave
        have h1 := saveUser_ok_inv hsave
        subst h1
        unfold createSampleData
        cases seedOk
        · exact Or.inl rfl
        · exact Or.inr ⟨(newUser s now).id, freshId { s with users := s.users ++ [newUser s now] }, rfl⟩

theorem postJobs_jobs (sess : Option Nat) (now : DateT) (body : JobBody) (s : Store) :
    (postJobs sess now body s).2.jobs = s.jobs ∨
    ∃ j, (postJobs sess now body s).2.jobs = s.jobs ++ [j] ∧ j.progress = 0 := by
  cases sess with
  | none => exact Or.inl rfl
  | some uid =>
    simp only [postJobs]
    split
    · exact Or.inr ⟨_, rfl, rfl⟩
    · exact Or.inl rfl

theorem postCustomers_jobs (sess : Option Nat) (now : DateT) (body : CustomerBody)
    (s : Store) : (postCustomers sess now body s).2.jobs = s.jobs := by
  cases sess with
  | none => rfl
  | some uid =>
    simp only [postCustomers]
    by_cases h : (body.name == "" || body.email == "") = true
    · rw [if_pos h]
    · rw [if_neg h]

theorem postPipelines_jobs (sess : Option Nat) (now : DateT) (body : PipelineBody)
    (s : Store) : (postPipelines sess now body s).2.jobs = s.jobs := by
  cases sess with
  | none => rfl
  | some uid =>
    simp only [postPipelines]
    by_cases h : (body.name == "") = true
    · rw [if_pos h]
    · rw [if_neg h]

theorem reachable_progressOk : ∀ {s : Store}, Reachable s → progressOk s := by
  intro s h
  induction h with
  | init =>
    intro j hj
    simp [emptyStore] at hj
  | auth username now seedOk sess a ih =>
    intro j hj
    rcases authGithub_store_jobs username now seedOk sess _ with h | ⟨uid, idBase, h⟩
    · rw [h] at hj
      exact ih j hj
    · rw [h, List.mem_append] at hj
      rcases hj with hj | hj
      · exact ih j hj
      · exact sampleRecords_jobs_progress uid idBase now j hj
  | jobs sess now body a ih =>
    intro j hj
    rcases postJobs_jobs sess now body _ with h | ⟨j0, h, hp⟩
    · rw [h] at hj
      exact ih j hj
    · rw [h, List.mem_append] at hj
      rcases hj with hj | hj
      · exact ih j hj
      · rw [List.mem_singleton] at hj
        subst hj
        rw [hp]
        exact ⟨le_refl 0, by norm_num⟩
  | customers sess now body a ih =>
    intro j hj
    rw [postCustomers_jobs] at hj
    exact ih j hj
  | pipelines sess now body a ih =>
    intro j hj
    rw [postPipelines_jobs] at hj
    exact ih j hj

/-! ## Claim C5 -/

/-- C5: (1) every store reachable through the server's write paths keeps
all job `progress` values within `[0, 100]`; (2) every job rendered by
GET /api/jobs on such a store has `progress` within `[0, 100]`; (3) a
POST /api/jobs request carrying `progress = 150` is persisted, with the
supplied value ignored: the stored job's progress is the schema default
`0`, which lies within `[0, 100]`. -/
theorem spec_c5 :
    (∀ s : Store, Reachable s → progressOk s) ∧
    (∀ (s : Store) (u : Nat) (vs : List JobView), progressOk s →
      (getJobs (some u) s).1 = ApiResult.ok vs →
      ∀ v ∈ vs, 0 ≤ v.progress ∧ v.progress ≤ 100) ∧
    (∀ (u : Nat) (now : DateT) (body : JobBody) (s : Store),
      body.progress = some 150 → body.title ≠ "" → body.currentStep ≠ "" →
      ∃ j, (postJobs (some u) now body s).2.jobs = s.jobs ++ [j] ∧
        j.progress = 0 ∧ 0 ≤ j.progress ∧ j.progress ≤ 100) := by
  refine ⟨fun s h => reachable_progressOk h, ?_, ?_⟩
  · intro s u vs hok h v hv
    obtain ⟨j, hj, hview⟩ := populateAll_mem (getJobs_ok h) v hv
    rw [List.mem_insertionSort, jobsQuery, List.mem_filter] at hj
    obtain ⟨c, p, _, _, rfl⟩ := jobViewOf_inv hview
    exact hok j hj.1
  · intro u now body s hp ht hc
    refine ⟨{ id := freshId s, title := body.title, customerId := body.customerId,
              pipelineId := body.pipelineId, currentStep := body.currentStep,
              status := JobStatus.active, dueDate := body.dueDate, progress := 0,
              userId := u, createdAt := now }, ?_, rfl, le_refl 0, by norm_num⟩
    simp [postJobs, validJob, ht, hc]

/-- C5 witness: rendered progress bound at a concrete listing, and the
concrete `progress = 150` write on `exStore`. -/
theorem spec_c5_witness :
    ((0 : Int) ≤ vJA1.progress ∧ vJA1.progress ≤ 100) ∧
    (∃ j, (postJobs (some 1) epochDate c10Body exStore).2.jobs = exStore.jobs ++ [j] ∧
      j.progress = 0 ∧ 0 ≤ j.progress ∧ j.progress ≤ 100) :=
  ⟨spec_c5.2.1 exStore 1 [vJA2, vJA1] (by unfold progressOk; decide) (by decide)
     vJA1 (by decide),
   spec_c5.2.2 1 epochDate c10Body exStore rfl (by decide) (by decide)⟩

/-! ## First-login characterisation -/

/-- On a first login (no stored user has username `"desivar"` nor the
fixed githubId), the login handler creates the user, runs the seeder and
assigns the session, in that order. -/
theorem authGithub_first (s : Store) (now : DateT) (seedOk : Bool) (sess : Option Nat)
    (hU : ∀ u ∈ s.users, u.username ≠ "desivar")
    (hG : ∀ u ∈ s.users, u.githubId ≠ "desivar-github-id") :
    authGithub "desivar" now seedOk sess s =
      { resp := ApiResult.ok (userView (newUser s now)),
        sess := some (newUser s now).id,
        store := (createSampleData (newUser s now).id now seedOk
          { s with users := s.users ++ [newUser s now] }).1,
        events := [Ev.userCreated, Ev.seedingRan, Ev.sessionAssigned],
        log := (createSampleData (newUser s now).id now seedOk
          { s with users := s.users ++ [newUser s now] }).2 } := by
  have hfind : s.users.find? (fun u => u.username == "desivar") = none := by
    rw [List.find?_eq_none]
    intro u hu
    simpa using hU u hu
  have hany : s.users.any (fun w => w.githubId == (newUser s now).githubId) = false := by
    rw [Bool.eq_false_iff]
    intro hc
    rw [List.any_eq_true] at hc
    obtain ⟨v, hv, hg⟩ := hc
    exact hG v hv (by simpa [newUser] using hg)
  have hsave : saveUser (newUser s now) s =
      Except.ok { s with users := s.users ++ [newUser s now] } := by
    unfold saveUser
    rw [hany]
    simp [newUser]
  unfold authGithub
  rw [if_neg (by simp), hfind, hsave]

/-! ## Claim C7 -/

/-- C7 counterexample: on a concrete first login the milestone trace is
user creation, then seeding, then session assignment — the session user
id is NOT assigned before the seeder runs (`req.session.userId = user._id`
at line 128 executes after `await createSampleData(user._id)` at line
125). -/
theorem spec_c7_cex :
    (authGithub "desivar" epochDate true none emptyStore).events =
      [Ev.userCreated, Ev.seedingRan, Ev.sessionAssigned] ∧
    ¬ ((authGithub "desivar" epochDate true none emptyStore).events.indexOf
          Ev.sessionAssigned <
        (authGithub "desivar" epochDate true none emptyStore).events.indexOf
          Ev.seedingRan) := by
  exact ⟨by decide, by decide⟩

/-- C7 amended: on a first login the seeder runs BEFORE the session user
id is assigned; nevertheless a seeding failure does not fail the login —
the error is caught inside `createSampleData` and only logged, the
response is still the 200 user payload and the session is still
established. -/
theorem spec_c7 : ∀ (s : Store) (now : DateT) (seedOk : Bool) (sess : Option Nat),
    (∀ u ∈ s.users, u.username ≠ "desivar") →
    (∀ u ∈ s.users, u.githubId ≠ "desivar-github-id") →
    (authGithub "desivar" now seedOk sess s).events =
      [Ev.userCreated, Ev.seedingRan, Ev.sessionAssigned] ∧
    (authGithub "desivar" now seedOk sess s).events.indexOf Ev.seedingRan <
      (authGithub "desivar" now seedOk sess s).events.indexOf Ev.sessionAssigned ∧
    (authGithub "desivar" now seedOk sess s).resp =
      ApiResult.ok (userView (newUser s now)) ∧
    (authGithub "desivar" now seedOk sess s).sess = some (newUser s now).id ∧
    (seedOk = false →
      (authGithub "desivar" now seedOk sess s).store =
        { s with users := s.users ++ [newUser s now] } ∧
      (authGithub "desivar" now seedOk sess s).log = ["Error creating sample data"]) := by
  intro s now seedOk sess hU hG
  rw [authGithub_first s now seedOk sess hU hG]
  refine ⟨rfl, ?_, rfl, rfl, ?_⟩
  · show ([Ev.userCreated, Ev.seedingRan, Ev.sessionAssigned].indexOf Ev.seedingRan <
      [Ev.userCreated, Ev.seedingRan, Ev.sessionAssigned].indexOf Ev.sessionAssigned)
    decide
  · rintro rfl
    exact ⟨rfl, rfl⟩

/-- C7 witness: the amended claim on the empty store with a failing
seeder. -/
theorem spec_c7_witness :
    (authGithub "desivar" epochDate false none emptyStore).events =
      [Ev.userCreated, Ev.seedingRan, Ev.sessionAssigned] ∧
    (authGithub "desivar" epochDate false none emptyStore).events.indexOf Ev.seedingRan <
      (authGithub "desivar" epochDate false none emptyStore).events.indexOf
        Ev.sessionAssigned ∧
    (authGithub "desivar" epochDate false none emptyStore).resp =
      ApiResult.ok (userView (newUser emptyStore epochDate)) ∧
    (authGithub "desivar" epochDate false none emptyStore).sess =
      some (newUser emptyStore epochDate).id ∧
    (false = false →
      (authGithub "desivar" epochDate false none emptyStore).store =
        { emptyStore with users := emptyStore.users ++ [newUser emptyStore epochDate] } ∧
      (authGithub "desivar" epochDate false none emptyStore).log =
        ["Error creating sample data"]) :=
  spec_c7 emptyStore epochDate false none (by decide) (by decide)

/-! ## Claim C4 -/

/-- C4: a first login for username `"desivar"` (no existing user record)
seeds exactly 2 pipelines, 3 customers and 3 jobs, all owned by the new
user, each job referencing one of the created customers and one of the
created pipelines; a second login with the same username leaves the
store unchanged (no re-seeding). -/
theorem spec_c4 : ∀ (s : Store) (now now2 : DateT) (sess sess2 : Option Nat)
    (seedOk2 : Bool),
    (∀ u ∈ s.users, u.username ≠ "desivar") →
    (∀ u ∈ s.users, u.githubId ≠ "desivar-github-id") →
    ∃ (u : UserR) (ps : List PipelineR) (cs : List CustomerR) (js : List JobR),
      u.username = "desivar" ∧
      (authGithub "desivar" now true sess s).store =
        { users := s.users ++ [u], pipelines := s.pipelines ++ ps,
          customers := s.customers ++ cs, jobs := s.jobs ++ js } ∧
      ps.length = 2 ∧ cs.length = 3 ∧ js.length = 3 ∧
      (∀ p ∈ ps, p.userId = u.id) ∧ (∀ c ∈ cs, c.userId = u.id) ∧
      (∀ j ∈ js, j.userId = u.id ∧ (∃ c ∈ cs, j.customerId = c.id) ∧
        (∃ p ∈ ps, j.pipelineId = p.id)) ∧
      (authGithub "desivar" now2 seedOk2 sess2
          (authGithub "desivar" now true sess s).store).store =
        (authGithub "desivar" now true sess s).store := by
  intro s now now2 sess sess2 seedOk2 hU hG
  rw [authGithub_first s now true sess hU hG]
  dsimp only
  refine ⟨newUser s now,
    (sampleRecords (newUser s now).id
      (freshId { s with users := s.users ++ [newUser s now] }) now).1,
    (sampleRecords (newUser s now).id
      (freshId { s with users := s.users ++ [newUser s now] }) now).2.1,
    (sampleRecords (newUser s now).id
      (freshId { s with users := s.users ++ [newUser s now] }) now).2.2,
    rfl, rfl, rfl, rfl, rfl, ?_, ?_, ?_, ?_⟩
  · intro p hp
    simp only [sampleRecords, List.mem_cons, List.not_mem_nil, or_false] at hp
    rcases hp with rfl | rfl <;> rfl
  · intro c hc
    simp only [sampleRecords, List.mem_cons, List.not_mem_nil, or_false] at hc
    rcases hc with rfl | rfl | rfl <;> rfl
  · intro j hj
    simp only [sampleRecords, List.mem_cons, List.not_mem_nil, or_false] at hj
    rcases hj with rfl | rfl | rfl
    · exact ⟨rfl, ⟨_, List.mem_cons_self _ _, rfl⟩, ⟨_, List.mem_cons_self _ _, rfl⟩⟩
    · exact ⟨rfl, ⟨_, List.mem_cons_of_mem _ (List.mem_cons_self _ _), rfl⟩,
        ⟨_, List.mem_cons_of_mem _ (List.mem_cons_self _ _), rfl⟩⟩
    · exact ⟨rfl,
        ⟨_, List.mem_cons_of_mem _ (List.mem_cons_of_mem _ (List.mem_cons_self _ _)), rfl⟩,
        ⟨_, List.mem_cons_self _ _, rfl⟩⟩
  · have hfind2 : ((createSampleData (newUser s now).id now true
        { s with users := s.users ++ [newUser s now] }).1).users.find?
          (fun w => w.username == "desivar") = some (newUser s now) := by
      show (s.users ++ [newUser s now]).find? (fun w => w.username == "desivar") =
        some (newUser s now)
      rw [List.find?_append]
      have h1 : s.users.find? (fun w => w.username == "desivar") = none := by
        rw [List.find?_eq_none]
        intro w hw
        simpa using hU w hw
      rw [h1]
      rfl
    conv_lhs => unfold authGithub
    rw [if_neg (by simp), hfind2]

/-- C4 witness: the first and second login on the empty store. -/
theorem spec_c4_witness :
    ∃ (u : UserR) (ps : List PipelineR) (cs : List CustomerR) (js : List JobR),
      u.username = "desivar" ∧
      (authGithub "desivar" epochDate true none emptyStore).store =
        { users := emptyStore.users ++ [u], pipelines := emptyStore.pipelines ++ ps,
          customers := emptyStore.customers ++ cs, jobs := emptyStore.jobs ++ js } ∧
      ps.length = 2 ∧ cs.length = 3 ∧ js.length = 3 ∧
      (∀ p ∈ ps, p.userId = u.id) ∧ (∀ c ∈ cs, c.userId = u.id) ∧
      (∀ j ∈ js, j.userId = u.id ∧ (∃ c ∈ cs, j.customerId = c.id) ∧
        (∃ p ∈ ps, j.pipelineId = p.id)) ∧
      (authGithub "desivar" epochDate true none
          (authGithub "desivar" epochDate true none emptyStore).store).store =
        (authGithub "desivar" epochDate true none emptyStore).store :=
  spec_c4 emptyStore epochDate epochDate none none true (by decide) (by decide)

/-! ## Date-rendering lemmas -/

theorem isDigitChar_digitChar (n : Nat) : isDigitChar (digitChar n) = true := by
  unfold digitChar
  rcases n with _ | _ | _ | _ | _ | _ | _ | _ | _ | n <;> rfl

theorem natDigitsAux_digits : ∀ (fuel n : Nat), ∀ c ∈ natDigitsAux fuel n,
    isDigitChar c = true := by
  intro fuel
  induction fuel with
  | zero =>
    intro n c hc
    simp [natDigitsAux] at hc
  | succ f ih =>
    intro n c hc
    unfold natDigitsAux at hc
    by_cases h : n < 10
    · rw [if_pos h] at hc
      rw [List.mem_singleton] at hc
      subst hc
      exact isDigitChar_digitChar n
    · rw [if_neg h, List.mem_append] at hc
      rcases hc with hc | hc
      · exact ih _ c hc
      · rw [List.mem_singleton] at hc
        subst hc
        exact isDigitChar_digitChar _

theorem natDigitsAux_length : ∀ (fuel n k : Nat), n < 10 ^ k → 1 ≤ k →
    (natDigitsAux fuel n).length ≤ k := by
  intro fuel
  induction fuel with
  | zero =>
    intro n k _ _
    simp [natDigitsAux]
  | succ f ih =>
    intro n k h hk
    unfold natDigitsAux
    by_cases hn : n < 10
    · rw [if_pos hn]
      simpa using hk
    · rw [if_neg hn]
      have hk2 : 2 ≤ k := by
        rcases Nat.lt_or_ge k 2 with hlt | hge
        · exfalso
          have hk1 : k = 1 := by omega
          subst hk1
          norm_num at h
          omega
        · exact hge
      have hpow : 10 ^ (k - 1) * 10 = 10 ^ k := by
        rw [← pow_succ]
        congr 1
        omega
      have hdiv : n / 10 < 10 ^ (k - 1) := by
        rw [Nat.div_lt_iff_lt_mul (by norm_num)]
        rw [hpow]
        exact h
      have := ih (n / 10) (k - 1) hdiv (by omega)
      simp only [List.length_append, List.length_cons, List.length_nil]
      omega

theorem natDigits_length {n k : Nat} (h : n < 10 ^ k) (hk : 1 ≤ k) :
    (natDigits n).length ≤ k :=
  natDigitsAux_length (n + 1) n k h hk

theorem padDigits_length {width n : Nat} (h : (natDigits n).length ≤ width) :
    (padDigits width n).length = width := by
  unfold padDigits
  rw [List.length_append, List.length_replicate]
  omega

theorem padDigits_digits (width n : Nat) : ∀ c ∈ padDigits width n,
    isDigitChar c = true := by
  intro c hc
  unfold padDigits at hc
  rw [List.mem_append] at hc
  rcases hc with hc | hc
  · rw [List.mem_replicate] at hc
    rw [hc.2]
    rfl
  · exact natDigitsAux_digits _ _ c hc

theorem isYMD_parts : ∀ (l1 l2 l3 : List Char),
    l1.length = 4 → l2.length = 2 → l3.length = 2 →
    (∀ c ∈ l1, isDigitChar c = true) → (∀ c ∈ l2, isDigitChar c = true) →
    (∀ c ∈ l3, isDigitChar c = true) →
    isYMDString (String.mk (l1 ++ '-' :: (l2 ++ '-' :: l3))) = true := by
  intro l1 l2 l3 h1 h2 h3 d1 d2 d3
  rcases l1 with _ | ⟨a1, _ | ⟨a2, _ | ⟨a3, _ | ⟨a4, _ | ⟨a5, t1⟩⟩⟩⟩⟩ <;>
    simp only [List.length_cons, List.length_nil] at h1 <;> try omega
  rcases l2 with _ | ⟨b1, _ | ⟨b2, _ | ⟨b3, t2⟩⟩⟩ <;>
    simp only [List.length_cons, List.length_nil] at h2 <;> try omega
  rcases l3 with _ | ⟨e1, _ | ⟨e2, _ | ⟨e3, t3⟩⟩⟩ <;>
    simp only [List.length_cons, List.length_nil] at h3 <;> try omega
  show isYMDString (String.mk [a1, a2, a3, a4, '-', b1, b2, '-', e1, e2]) = true
  unfold isYMDString
  show (isDigitChar a1 && isDigitChar a2 && isDigitChar a3 && isDigitChar a4 &&
    ('-' == '-') && isDigitChar b1 && isDigitChar b2 && ('-' == '-') &&
    isDigitChar e1 && isDigitChar e2) = true
  rw [d1 a1 (by simp), d1 a2 (by simp), d1 a3 (by simp), d1 a4 (by simp),
    d2 b1 (by simp), d2 b2 (by simp), d3 e1 (by simp), d3 e2 (by simp)]
  rfl

theorem isYMD_toISODatePart {d : DateT} (h : validDate d) :
    isYMDString (toISODatePart d) = true := by
  obtain ⟨hy, hm1, hm2, hd1, hd2⟩ := h
  unfold toISODatePart isoDateChars
  apply isYMD_parts
  · exact padDigits_length (@natDigits_length d.year 4 (by norm_num; omega) (by norm_num))
  · exact padDigits_length (@natDigits_length d.month 2 (by norm_num; omega) (by norm_num))
  · exact padDigits_length (@natDigits_length d.day 2 (by norm_num; omega) (by norm_num))
  · exact padDigits_digits 4 d.year
  · exact padDigits_digits 2 d.month
  · exact padDigits_digits 2 d.day

/-! ## Claim C8 -/

/-- C8: every authenticated GET /api/jobs response lists the owner's
jobs sorted by creation timestamp descending (a sorted permutation of
the owner filter of the store); each entry's `customer` and `pipeline`
fields equal the names of the referenced Customer and Pipeline records,
and `dueDate` is the `YYYY-MM-DD` rendering of the job's due date when
set (a digits-dashes-digits string for every calendar-valid date) and
`none` when unset. -/
theorem spec_c8 : ∀ (u : Nat) (s : Store) (vs : List JobView),
    (getJobs (some u) s).1 = ApiResult.ok vs →
    (∃ js : List JobR,
      js.Pairwise (fun a b => b.createdAt.ms ≤ a.createdAt.ms) ∧
      js.Perm (s.jobs.filter (fun j => j.userId == u)) ∧
      populateAll s js = some vs) ∧
    (∀ v ∈ vs, ∃ j ∈ s.jobs, ∃ c p, j.userId = u ∧
      findCustomer s j.customerId = some c ∧ findPipeline s j.pipelineId = some p ∧
      v.customer = c.name ∧ v.pipeline = p.name ∧
      ((j.dueDate = none ∧ v.dueDate = none) ∨
       (∃ d, j.dueDate = some d ∧ v.dueDate = some (toISODatePart d) ∧
         (validDate d → isYMDString (toISODatePart d) = true)))) := by
  intro u s vs h
  have hpop := getJobs_ok h
  constructor
  · refine ⟨List.insertionSort newerRel (jobsQuery u s), ?_, ?_, hpop⟩
    · exact List.sorted_insertionSort newerRel (jobsQuery u s)
    · exact List.perm_insertionSort newerRel (jobsQuery u s)
  · intro v hv
    obtain ⟨j, hj, hview⟩ := populateAll_mem hpop v hv
    rw [List.mem_insertionSort] at hj
    rw [jobsQuery, List.mem_filter] at hj
    obtain ⟨c, p, hc, hp, rfl⟩ := jobViewOf_inv hview
    refine ⟨j, hj.1, c, p, by simpa using hj.2, hc, hp, rfl, rfl, ?_⟩
    cases hd : j.dueDate with
    | none => exact Or.inl ⟨rfl, by simp [hd]⟩
    | some d =>
      exact Or.inr ⟨d, rfl, by simp, fun hvd => isYMD_toISODatePart hvd⟩

/-- C8 witness: the rendering of job 7 in user 1's listing on `exStore`:
its `customer`/`pipeline` names come from customer 5 and pipeline 3, and
its due date renders as a `YYYY-MM-DD` string. -/
theorem spec_c8_witness :
    ∃ j ∈ exStore.jobs, ∃ c p, j.userId = 1 ∧
      findCustomer exStore j.customerId = some c ∧
      findPipeline exStore j.pipelineId = some p ∧
      vJA1.customer = c.name ∧ vJA1.pipeline = p.name ∧
      ((j.dueDate = none ∧ vJA1.dueDate = none) ∨
       (∃ d, j.dueDate = some d ∧ vJA1.dueDate = some (toISODatePart d) ∧
         (validDate d → isYMDString (toISODatePart d) = true))) :=
  (spec_c8 1 exStore [vJA2, vJA1] (by decide)).2 vJA1 (by decide)

end PipelineManager
